import Mathlib

/-
Verification of the mortgage calculator in src/calculator.py.

The two finance functions are pure; they are embedded over the exact
rationals ℚ (standing in for Python double precision, as the claims
direct), with the Python term argument kept as an integer, exactly as
`int(term_years_str)` produces one. A function that can return either a
float or an error string in Python is embedded as `String ⊕ ℚ`, with the
error strings carried verbatim. Integer exponentiation `(1 + i) ** n`
with n = loan_term_years * 12 is embedded as `^ (loan_term_years * 12).toNat`;
on every path that reaches the exponentiation the validation has already
ensured `loan_term_years > 0`, so `.toNat` agrees with the Python value.

The interactive menu loop `display_menu_and_get_selection` is embedded by
its per-keypress transition (the `match key` block of lines 126-136) and
by a loop that consumes a finite list of keypresses, returning `none` if
the key list runs out before a selecting key arrives.
-/

namespace MortgageCalc

/-- Result of `calculate_mortgage_payment` on lines 19-49 of
src/calculator.py: validation first (principal, then rate, then term),
then the zero-rate straight-line branch, then the annuity formula. -/
def calculate_mortgage_payment (principal annual_interest_rate : ℚ)
    (loan_term_years : ℤ) : String ⊕ ℚ :=
  if principal ≤ 0 then
    Sum.inl "Error: Principal must be a positive number."
  else if annual_interest_rate < 0 then
    Sum.inl "Error: Annual interest rate cannot be negative."
  else if loan_term_years ≤ 0 then
    Sum.inl "Error: Loan term in years must be a positive integer."
  else
    let monthly_interest_rate : ℚ := annual_interest_rate / 12
    let total_payments : ℤ := loan_term_years * 12
    if monthly_interest_rate = 0 then
      Sum.inr (principal / (total_payments : ℚ))
    else
      let power_of_i : ℚ := (1 + monthly_interest_rate) ^ total_payments.toNat
      let numerator : ℚ := monthly_interest_rate * power_of_i
      let denominator : ℚ := power_of_i - 1
      Sum.inr (principal * (numerator / denominator))

/-- Result of `calculate_loan_amount` on lines 66-89 of src/calculator.py:
validation first (payment, then rate, then term), then the zero-rate
branch, then the rearranged annuity formula. -/
def calculate_loan_amount (monthly_payment annual_interest_rate : ℚ)
    (loan_term_years : ℤ) : String ⊕ ℚ :=
  if monthly_payment ≤ 0 then
    Sum.inl "Error: Monthly payment must be a positive number."
  else if annual_interest_rate < 0 then
    Sum.inl "Error: Annual interest rate cannot be negative."
  else if loan_term_years ≤ 0 then
    Sum.inl "Error: Loan term in years must be a positive integer."
  else
    let monthly_interest_rate : ℚ := annual_interest_rate / 12
    let total_payments : ℤ := loan_term_years * 12
    if monthly_interest_rate = 0 then
      Sum.inr (monthly_payment * (total_payments : ℚ))
    else
      let power_of_i : ℚ := (1 + monthly_interest_rate) ^ total_payments.toNat
      let numerator : ℚ := power_of_i - 1
      let denominator : ℚ := monthly_interest_rate * power_of_i
      Sum.inr (monthly_payment * (numerator / denominator))

/-- Keys distinguished by the `match key` block of
`display_menu_and_get_selection` (lines 126-136): arrows, the two
selecting keys, the two cancelling keys, and a catch-all for any other
keypress. -/
inductive Key where
  | up
  | down
  | enter
  | space
  | esc
  | ctrlC
  | other
deriving DecidableEq, Repr

/-- Effect of one keypress in `display_menu_and_get_selection`
(lines 126-136): `Sum.inl r` means the function returns `r`,
`Sum.inr j` means the loop continues with `selected_index = j`.
Python `%` on a positive modulus agrees with `Int.emod`, which `%` on
`ℤ` denotes. -/
def menu_step (num_options selected_index : ℤ) : Key → ℤ ⊕ ℤ
  | Key.up => Sum.inr ((selected_index - 1) % num_options)
  | Key.down => Sum.inr ((selected_index + 1) % num_options)
  | Key.enter => Sum.inl selected_index
  | Key.space => Sum.inl selected_index
  | Key.esc => Sum.inl (-1)
  | Key.ctrlC => Sum.inl (-1)
  | Key.other => Sum.inr selected_index

/-- The loop of `display_menu_and_get_selection` (lines 105-136), driven
by a finite list of keypresses; `selected_index` starts at 0 at the call
site. Returns `none` when the supplied keypresses run out without a
selecting or cancelling key. -/
def display_menu_and_get_selection (num_options : ℤ) :
    ℤ → List Key → Option ℤ
  | _, [] => none
  | selected_index, k :: ks =>
    match menu_step num_options selected_index k with
    | Sum.inl r => some r
    | Sum.inr j => display_menu_and_get_selection num_options j ks

/-- Outcome of the affordable-house-price branch of
`run_mortgage_calculator_app` (lines 224-247 of src/calculator.py):
whether the calculation succeeded, the deposit percentage that was
computed (−1 on failure, as on line 232), and whether the low-deposit
LTV warning of lines 244-247 was printed. -/
structure AffordableOutcome where
  success : Bool
  deposit_percentage : ℚ
  warning_shown : Bool
deriving DecidableEq, Repr

/-- The affordable-house-price branch of `run_mortgage_calculator_app`
(lines 224-247): call `calculate_loan_amount`; on a numeric result
compute `deposit_percentage = deposit / (principal + deposit) * 100` and
print the LTV warning exactly when that percentage is below 10; on an
error result set the percentage to −1 and print no warning. -/
def affordable_branch (monthly_payment deposit_amount annual_rate : ℚ)
    (term_years : ℤ) : AffordableOutcome :=
  match calculate_loan_amount monthly_payment annual_rate term_years with
  | Sum.inr principal_amount =>
    let deposit_percentage : ℚ :=
      deposit_amount / (principal_amount + deposit_amount) * 100
    { success := true
      deposit_percentage := deposit_percentage
      warning_shown := decide (deposit_percentage < 10) }
  | Sum.inl _ =>
    { success := false
      deposit_percentage := -1
      warning_shown := false }

/-! Helper lemmas about the two finance functions. -/

lemma payment_err_principal (p r : ℚ) (t : ℤ) (hp : p ≤ 0) :
    calculate_mortgage_payment p r t =
      Sum.inl "Error: Principal must be a positive number." := by
  simp only [calculate_mortgage_payment, if_pos hp]

lemma payment_err_rate (p r : ℚ) (t : ℤ) (hp : 0 < p) (hr : r < 0) :
    calculate_mortgage_payment p r t =
      Sum.inl "Error: Annual interest rate cannot be negative." := by
  simp only [calculate_mortgage_payment, if_neg hp.not_le, if_pos hr]

lemma payment_err_term (p r : ℚ) (t : ℤ) (hp : 0 < p) (hr : 0 ≤ r) (ht : t ≤ 0) :
    calculate_mortgage_payment p r t =
      Sum.inl "Error: Loan term in years must be a positive integer." := by
  simp only [calculate_mortgage_payment, if_neg hp.not_le, if_neg hr.not_lt,
    if_pos ht]

lemma payment_zero_rate (p : ℚ) (t : ℤ) (hp : 0 < p) (ht : 0 < t) :
    calculate_mortgage_payment p 0 t = Sum.inr (p / ((t * 12 : ℤ) : ℚ)) := by
  simp only [calculate_mortgage_payment, if_neg hp.not_le,
    if_neg (lt_irrefl (0 : ℚ)), if_neg ht.not_le, zero_div, eq_self_iff_true,
    if_true]

lemma payment_formula (p r : ℚ) (t : ℤ) (hp : 0 < p) (hr : 0 < r) (ht : 0 < t) :
    calculate_mortgage_payment p r t =
      Sum.inr (p * (r / 12 * (1 + r / 12) ^ (t * 12).toNat /
        ((1 + r / 12) ^ (t * 12).toNat - 1))) := by
  have h12 : r / 12 ≠ 0 := div_ne_zero hr.ne' (by norm_num)
  simp only [calculate_mortgage_payment, if_neg hp.not_le, if_neg hr.le.not_lt,
    if_neg ht.not_le, if_neg h12]

lemma loan_err_payment (m r : ℚ) (t : ℤ) (hm : m ≤ 0) :
    calculate_loan_amount m r t =
      Sum.inl "Error: Monthly payment must be a positive number." := by
  simp only [calculate_loan_amount, if_pos hm]

lemma loan_err_rate (m r : ℚ) (t : ℤ) (hm : 0 < m) (hr : r < 0) :
    calculate_loan_amount m r t =
      Sum.inl "Error: Annual interest rate cannot be negative." := by
  simp only [calculate_loan_amount, if_neg hm.not_le, if_pos hr]

lemma loan_err_term (m r : ℚ) (t : ℤ) (hm : 0 < m) (hr : 0 ≤ r) (ht : t ≤ 0) :
    calculate_loan_amount m r t =
      Sum.inl "Error: Loan term in years must be a positive integer." := by
  simp only [calculate_loan_amount, if_neg hm.not_le, if_neg hr.not_lt, if_pos ht]

lemma loan_zero_rate (m : ℚ) (t : ℤ) (hm : 0 < m) (ht : 0 < t) :
    calculate_loan_amount m 0 t = Sum.inr (m * ((t * 12 : ℤ) : ℚ)) := by
  simp only [calculate_loan_amount, if_neg hm.not_le, if_neg (lt_irrefl (0 : ℚ)),
    if_neg ht.not_le, zero_div, eq_self_iff_true, if_true]

lemma loan_formula (m r : ℚ) (t : ℤ) (hm : 0 < m) (hr : 0 < r) (ht : 0 < t) :
    calculate_loan_amount m r t =
      Sum.inr (m * (((1 + r / 12) ^ (t * 12).toNat - 1) /
        (r / 12 * (1 + r / 12) ^ (t * 12).toNat))) := by
  have h12 : r / 12 ≠ 0 := div_ne_zero hr.ne' (by norm_num)
  simp only [calculate_loan_amount, if_neg hm.not_le, if_neg hr.le.not_lt,
    if_neg ht.not_le, if_neg h12]

lemma monthly_rate_pos (r : ℚ) (hr : 0 < r) : 0 < r / 12 :=
  div_pos hr (by norm_num)

lemma one_lt_power_of_i (r : ℚ) (t : ℤ) (hr : 0 < r) (ht : 0 < t) :
    1 < (1 + r / 12) ^ (t * 12).toNat := by
  have hi : 0 < r / 12 := monthly_rate_pos r hr
  have hn : (t * 12).toNat ≠ 0 := by omega
  exact (one_lt_pow_iff_of_nonneg (by linarith) hn).mpr (by linarith)

lemma payment_value_pos (p r : ℚ) (t : ℤ) (hp : 0 < p) (hr : 0 < r) (ht : 0 < t) :
    0 < p * (r / 12 * (1 + r / 12) ^ (t * 12).toNat /
      ((1 + r / 12) ^ (t * 12).toNat - 1)) := by
  have hi : 0 < r / 12 := monthly_rate_pos r hr
  have hx : 1 < (1 + r / 12) ^ (t * 12).toNat := one_lt_power_of_i r t hr ht
  exact mul_pos hp (div_pos (mul_pos hi (lt_trans one_pos hx)) (by linarith))

lemma loan_value_pos (m r : ℚ) (t : ℤ) (hm : 0 < m) (hr : 0 < r) (ht : 0 < t) :
    0 < m * (((1 + r / 12) ^ (t * 12).toNat - 1) /
      (r / 12 * (1 + r / 12) ^ (t * 12).toNat)) := by
  have hi : 0 < r / 12 := monthly_rate_pos r hr
  have hx : 1 < (1 + r / 12) ^ (t * 12).toNat := one_lt_power_of_i r t hr ht
  exact mul_pos hm (div_pos (by linarith) (mul_pos hi (lt_trans one_pos hx)))

lemma inverse_formula_cancel (p i x : ℚ) (hi : i ≠ 0) (hx0 : x ≠ 0)
    (hx1 : x - 1 ≠ 0) :
    p * (i * x / (x - 1)) * ((x - 1) / (i * x)) = p := by
  field_simp

lemma total_payments_cast_pos (t : ℤ) (ht : 0 < t) : (0 : ℚ) < ((t * 12 : ℤ) : ℚ) := by
  exact_mod_cast (by omega : (0 : ℤ) < t * 12)

lemma payment_success (p r : ℚ) (t : ℤ) (hp : 0 < p) (hr : 0 ≤ r) (ht : 0 < t) :
    ∃ v, calculate_mortgage_payment p r t = Sum.inr v ∧ 0 < v := by
  rcases hr.eq_or_lt with hr0 | hrpos
  · refine ⟨p / ((t * 12 : ℤ) : ℚ), ?_, ?_⟩
    · rw [← hr0]; exact payment_zero_rate p t hp ht
    · exact div_pos hp (total_payments_cast_pos t ht)
  · exact ⟨_, payment_formula p r t hp hrpos ht, payment_value_pos p r t hp hrpos ht⟩

lemma loan_success (m r : ℚ) (t : ℤ) (hm : 0 < m) (hr : 0 ≤ r) (ht : 0 < t) :
    ∃ v, calculate_loan_amount m r t = Sum.inr v ∧ 0 < v := by
  rcases hr.eq_or_lt with hr0 | hrpos
  · refine ⟨m * ((t * 12 : ℤ) : ℚ), ?_, ?_⟩
    · rw [← hr0]; exact loan_zero_rate m t hm ht
    · exact mul_pos hm (total_payments_cast_pos t ht)
  · exact ⟨_, loan_formula m r t hm hrpos ht, loan_value_pos m r t hm hrpos ht⟩

/-! Claim theorems. -/

/-- C1: for every principal > 0, annualRate > 0 and termYears > 0,
`calculate_mortgage_payment` returns the number
principal × [i(1+i)^n] / [(1+i)^n − 1] with i = annualRate / 12 and
n = termYears × 12 (the standard amortizing-loan formula). -/
theorem c1_payment_is_amortizing_formula (p r : ℚ) (t : ℤ)
    (hp : 0 < p) (hr : 0 < r) (ht : 0 < t) :
    calculate_mortgage_payment p r t =
      Sum.inr (p * (r / 12 * (1 + r / 12) ^ (t * 12).toNat) /
        ((1 + r / 12) ^ (t * 12).toNat - 1)) := by
  rw [payment_formula p r t hp hr ht]
  congr 1
  ring

/-- Witness for C1 at principal 200000, rate 0.05, term 30 years. -/
theorem c1_witness :
    calculate_mortgage_payment 200000 (5 / 100) 30 =
      Sum.inr (200000 * (5 / 100 / 12 * (1 + 5 / 100 / 12) ^ ((30 * 12 : ℤ)).toNat) /
        ((1 + 5 / 100 / 12) ^ ((30 * 12 : ℤ)).toNat - 1)) :=
  c1_payment_is_amortizing_formula 200000 (5 / 100) 30 (by norm_num) (by norm_num)
    (by norm_num)

/-- C4: at rate zero, the payment function returns exactly
principal / (termYears × 12) and the loan function returns exactly
monthlyPayment × (termYears × 12). -/
theorem c4_zero_rate_boundary (p m : ℚ) (t : ℤ) :
    (0 < p → 0 < t →
      calculate_mortgage_payment p 0 t = Sum.inr (p / ((t * 12 : ℤ) : ℚ))) ∧
    (0 < m → 0 < t →
      calculate_loan_amount m 0 t = Sum.inr (m * ((t * 12 : ℤ) : ℚ))) :=
  ⟨fun hp ht => payment_zero_rate p t hp ht,
   fun hm ht => loan_zero_rate m t hm ht⟩

/-- Witness for C4 at principal 240000, payment 1000, term 20 years;
240000 / 240 = 1000 and 1000 × 240 = 240000. -/
theorem c4_witness :
    calculate_mortgage_payment 240000 0 20 = Sum.inr 1000 ∧
    calculate_loan_amount 1000 0 20 = Sum.inr 240000 := by
  have h := c4_zero_rate_boundary 240000 1000 20
  constructor
  · rw [h.1 (by norm_num) (by norm_num)]; norm_num
  · rw [h.2 (by norm_num) (by norm_num)]; norm_num

/-- C5: for every principal > 0, rate ≥ 0 and term > 0 the payment
function returns a positive number (no failure value), and when the rate
is nonzero the denominator (1+i)^n − 1 is strictly positive. -/
theorem c5_payment_positive (p r : ℚ) (t : ℤ)
    (hp : 0 < p) (hr : 0 ≤ r) (ht : 0 < t) :
    (∃ v, calculate_mortgage_payment p r t = Sum.inr v ∧ 0 < v) ∧
    (0 < r → 0 < (1 + r / 12) ^ (t * 12).toNat - 1) :=
  ⟨payment_success p r t hp hr ht,
   fun hrpos => sub_pos.mpr (one_lt_power_of_i r t hrpos ht)⟩

/-- Witness for C5 at principal 100000, rate 0.045, term 25 years. -/
theorem c5_witness :
    (∃ v, calculate_mortgage_payment 100000 (45 / 1000) 25 = Sum.inr v ∧ 0 < v) ∧
    (0 < (45 / 1000 : ℚ) →
      0 < (1 + (45 / 1000 : ℚ) / 12) ^ ((25 * 12 : ℤ)).toNat - 1) :=
  c5_payment_positive 100000 (45 / 1000) 25 (by norm_num) (by norm_num) (by norm_num)

/-- C2: for every valid P > 0, r ≥ 0, t > 0, the loan-amount function
applied to the computed monthly payment returns exactly P over exact
rational arithmetic (the loan-amount formula is the algebraic inverse of
the payment formula). -/
theorem c2_round_trip (p r : ℚ) (t : ℤ) (M : ℚ)
    (hp : 0 < p) (hr : 0 ≤ r) (ht : 0 < t)
    (hM : calculate_mortgage_payment p r t = Sum.inr M) :
    calculate_loan_amount M r t = Sum.inr p := by
  rcases hr.eq_or_lt with hr0 | hrpos
  · subst hr0
    rw [payment_zero_rate p t hp ht] at hM
    have hMval : p / ((t * 12 : ℤ) : ℚ) = M := Sum.inr.inj hM
    have hn : (0 : ℚ) < ((t * 12 : ℤ) : ℚ) := total_payments_cast_pos t ht
    have hMpos : 0 < M := hMval ▸ div_pos hp hn
    rw [loan_zero_rate M t hMpos ht, ← hMval, div_mul_cancel₀]
    exact hn.ne'
  · rw [payment_formula p r t hp hrpos ht] at hM
    have hMval := Sum.inr.inj hM
    have hMpos : 0 < M := hMval ▸ payment_value_pos p r t hp hrpos ht
    rw [loan_formula M r t hMpos hrpos ht, ← hMval]
    congr 1
    have hi : (r / 12 : ℚ) ≠ 0 := (monthly_rate_pos r hrpos).ne'
    have hx : (1 : ℚ) < (1 + r / 12) ^ (t * 12).toNat := one_lt_power_of_i r t hrpos ht
    have hx0 : ((1 + r / 12 : ℚ)) ^ (t * 12).toNat ≠ 0 := (lt_trans one_pos hx).ne'
    have hx1 : ((1 + r / 12 : ℚ)) ^ (t * 12).toNat - 1 ≠ 0 := (sub_pos.mpr hx).ne'
    exact inverse_formula_cancel p (r / 12) _ hi hx0 hx1

/-- Witness for C2 at P = 240000, r = 0, t = 20, where the computed
monthly payment is 1000. -/
theorem c2_witness : calculate_loan_amount 1000 0 20 = Sum.inr 240000 :=
  c2_round_trip 240000 0 20 1000 (by norm_num) (by norm_num) (by norm_num)
    (by rw [payment_zero_rate 240000 20 (by norm_num) (by norm_num)]; norm_num)

/-- C3: each finance function returns a failure value exactly when an
input is invalid, the principal (resp. payment) check takes priority over
the rate check and the rate check over the term check, each violation
yields its distinct message, and when no check fails a number is
returned. -/
theorem c3_validation (p m r : ℚ) (t : ℤ) :
    ((∃ e, calculate_mortgage_payment p r t = Sum.inl e) ↔
      p ≤ 0 ∨ r < 0 ∨ t ≤ 0) ∧
    (p ≤ 0 → calculate_mortgage_payment p r t =
      Sum.inl "Error: Principal must be a positive number.") ∧
    (0 < p → r < 0 → calculate_mortgage_payment p r t =
      Sum.inl "Error: Annual interest rate cannot be negative.") ∧
    (0 < p → 0 ≤ r → t ≤ 0 → calculate_mortgage_payment p r t =
      Sum.inl "Error: Loan term in years must be a positive integer.") ∧
    (0 < p → 0 ≤ r → 0 < t →
      ∃ v, calculate_mortgage_payment p r t = Sum.inr v) ∧
    ((∃ e, calculate_loan_amount m r t = Sum.inl e) ↔
      m ≤ 0 ∨ r < 0 ∨ t ≤ 0) ∧
    (m ≤ 0 → calculate_loan_amount m r t =
      Sum.inl "Error: Monthly payment must be a positive number.") ∧
    (0 < m → r < 0 → calculate_loan_amount m r t =
      Sum.inl "Error: Annual interest rate cannot be negative.") ∧
    (0 < m → 0 ≤ r → t ≤ 0 → calculate_loan_amount m r t =
      Sum.inl "Error: Loan term in years must be a positive integer.") ∧
    (0 < m → 0 ≤ r → 0 < t →
      ∃ v, calculate_loan_amount m r t = Sum.inr v) := by
  refine ⟨⟨?_, ?_⟩, ?_, ?_, ?_, ?_, ⟨?_, ?_⟩, ?_, ?_, ?_, ?_⟩
  · rintro ⟨e, he⟩
    by_contra hcon
    push_neg at hcon
    obtain ⟨hp, hr, ht⟩ := hcon
    obtain ⟨v, hv, _⟩ := payment_success p r t hp hr ht
    rw [hv] at he
    simp at he
  · rintro (hp | hr | ht)
    · exact ⟨_, payment_err_principal p r t hp⟩
    · rcases le_or_lt p 0 with hp | hp
      · exact ⟨_, payment_err_principal p r t hp⟩
      · exact ⟨_, payment_err_rate p r t hp hr⟩
    · rcases le_or_lt p 0 with hp | hp
      · exact ⟨_, payment_err_principal p r t hp⟩
      · rcases lt_or_le r 0 with hr | hr
        · exact ⟨_, payment_err_rate p r t hp hr⟩
        · exact ⟨_, payment_err_term p r t hp hr ht⟩
  · exact payment_err_principal p r t
  · exact payment_err_rate p r t
  · exact payment_err_term p r t
  · exact fun hp hr ht => ((payment_success p r t hp hr ht).imp fun v hv => hv.1)
  · rintro ⟨e, he⟩
    by_contra hcon
    push_neg at hcon
    obtain ⟨hm, hr, ht⟩ := hcon
    obtain ⟨v, hv, _⟩ := loan_success m r t hm hr ht
    rw [hv] at he
    simp at he
  · rintro (hm | hr | ht)
    · exact ⟨_, loan_err_payment m r t hm⟩
    · rcases le_or_lt m 0 with hm | hm
      · exact ⟨_, loan_err_payment m r t hm⟩
      · exact ⟨_, loan_err_rate m r t hm hr⟩
    · rcases le_or_lt m 0 with hm | hm
      · exact ⟨_, loan_err_payment m r t hm⟩
      · rcases lt_or_le r 0 with hr | hr
        · exact ⟨_, loan_err_rate m r t hm hr⟩
        · exact ⟨_, loan_err_term m r t hm hr ht⟩
  · exact loan_err_payment m r t
  · exact loan_err_rate m r t
  · exact loan_err_term m r t
  · exact fun hm hr ht => ((loan_success m r t hm hr ht).imp fun v hv => hv.1)

/-- Witness for C3: the three spec examples for the payment function and
the payment-invalid case of the loan function. -/
theorem c3_witness :
    calculate_mortgage_payment (-1) (5 / 100) 25 =
      Sum.inl "Error: Principal must be a positive number." ∧
    calculate_mortgage_payment 100000 (-(1 / 100)) 25 =
      Sum.inl "Error: Annual interest rate cannot be negative." ∧
    calculate_mortgage_payment 100000 (5 / 100) 0 =
      Sum.inl "Error: Loan term in years must be a positive integer." ∧
    calculate_loan_amount (-5) (5 / 100) 25 =
      Sum.inl "Error: Monthly payment must be a positive number." := by
  refine ⟨?_, ?_, ?_, ?_⟩
  · exact (c3_validation (-1) 0 (5 / 100) 25).2.1 (by norm_num)
  · exact (c3_validation 100000 0 (-(1 / 100)) 25).2.2.1 (by norm_num) (by norm_num)
  · exact (c3_validation 100000 0 (5 / 100) 0).2.2.2.1 (by norm_num) (by norm_num)
      (by norm_num)
  · exact (c3_validation 0 (-5) (5 / 100) 25).2.2.2.2.2.2.1 (by norm_num)

/-! Helper lemmas about the menu loop. -/

lemma neg_one_emod (n : ℤ) (hn : 0 < n) : (0 - 1 : ℤ) % n = n - 1 := by
  have h : (0 - 1 : ℤ) = (n - 1) + n * (-1) := by ring
  rw [h, Int.add_mul_emod_self_left, Int.emod_eq_of_lt (by omega) (by omega)]

lemma loan_result_pos (m r : ℚ) (t : ℤ) (P : ℚ)
    (h : calculate_loan_amount m r t = Sum.inr P) : 0 < P := by
  simp only [calculate_loan_amount] at h
  split_ifs at h with h1 h2 h3 h4
  · have hP := Sum.inr.inj h
    have hm : 0 < m := lt_of_not_le h1
    have ht : 0 < t := lt_of_not_le h3
    exact hP ▸ mul_pos hm (total_payments_cast_pos t ht)
  · have hP := Sum.inr.inj h
    have hm : 0 < m := lt_of_not_le h1
    have ht : 0 < t := lt_of_not_le h3
    have hr : 0 < r := by
      rcases lt_or_le 0 r with hr | hr
      · exact hr
      · exact absurd (by rw [le_antisymm hr (not_lt.mp h2)]; norm_num) h4
    exact hP ▸ loan_value_pos m r t hm hr ht

/-- C6: on a non-empty option list of length n, down-arrow on the last
option wraps the highlight to the first, up-arrow on the first wraps to
the last, Escape or Ctrl-C returns the cancel sentinel −1 from any
highlight position, and Enter or Space returns the currently highlighted
index. -/
theorem c6_menu_navigation (n i : ℤ) (ks : List Key) (hn : 0 < n) :
    menu_step n (n - 1) Key.down = Sum.inr 0 ∧
    menu_step n 0 Key.up = Sum.inr (n - 1) ∧
    menu_step n i Key.esc = Sum.inl (-1) ∧
    menu_step n i Key.ctrlC = Sum.inl (-1) ∧
    menu_step n i Key.enter = Sum.inl i ∧
    menu_step n i Key.space = Sum.inl i ∧
    display_menu_and_get_selection n i (Key.esc :: ks) = some (-1) ∧
    display_menu_and_get_selection n i (Key.ctrlC :: ks) = some (-1) ∧
    display_menu_and_get_selection n i (Key.enter :: ks) = some i ∧
    display_menu_and_get_selection n i (Key.space :: ks) = some i := by
  refine ⟨?_, ?_, rfl, rfl, rfl, rfl, rfl, rfl, rfl, rfl⟩
  · simp only [menu_step, Sum.inr.injEq]
    rw [sub_add_cancel, Int.emod_self]
  · simp only [menu_step, Sum.inr.injEq]
    exact neg_one_emod n hn

/-- Witness for C6 on the three-option menu of the application, with the
highlight on index 1. -/
theorem c6_witness :
    menu_step 3 (3 - 1) Key.down = Sum.inr 0 ∧
    menu_step 3 0 Key.up = Sum.inr (3 - 1) ∧
    menu_step 3 1 Key.esc = Sum.inl (-1) ∧
    menu_step 3 1 Key.ctrlC = Sum.inl (-1) ∧
    menu_step 3 1 Key.enter = Sum.inl 1 ∧
    menu_step 3 1 Key.space = Sum.inl 1 ∧
    display_menu_and_get_selection 3 1 [Key.esc] = some (-1) ∧
    display_menu_and_get_selection 3 1 [Key.ctrlC] = some (-1) ∧
    display_menu_and_get_selection 3 1 [Key.enter] = some 1 ∧
    display_menu_and_get_selection 3 1 [Key.space] = some 1 :=
  c6_menu_navigation 3 1 [] (by norm_num)

/-- C10: every keypress keeps the highlighted index inside the range
[0, n), and any key other than the six recognised ones leaves the index
unchanged without returning from the function. -/
theorem c10_menu_invariant (n i : ℤ) (k : Key) (hn : 0 < n)
    (hi0 : 0 ≤ i) (hin : i < n) :
    (∀ j, menu_step n i k = Sum.inr j → 0 ≤ j ∧ j < n) ∧
    (k = Key.other → menu_step n i k = Sum.inr i) := by
  constructor
  · intro j hj
    cases k
    all_goals simp only [menu_step, Sum.inr.injEq, reduceCtorEq] at hj
    · exact hj ▸ ⟨Int.emod_nonneg _ hn.ne', Int.emod_lt_of_pos _ hn⟩
    · exact hj ▸ ⟨Int.emod_nonneg _ hn.ne', Int.emod_lt_of_pos _ hn⟩
    · exact hj ▸ ⟨hi0, hin⟩
  · rintro rfl
    rfl

/-- Witness for C10 on the three-option menu, highlight on index 2,
pressing an unrecognised key. -/
theorem c10_witness :
    (∀ j, menu_step 3 2 Key.other = Sum.inr j → 0 ≤ j ∧ j < 3) ∧
    (Key.other = Key.other → menu_step 3 2 Key.other = Sum.inr 2) :=
  c10_menu_invariant 3 2 Key.other (by norm_num) (by norm_num) (by norm_num)

/-- C7: whenever `calculate_loan_amount` succeeds with principal P, the
affordable-price branch computes deposit-percentage
deposit / (P + deposit) × 100 and shows the loan-to-value warning exactly
when that percentage is strictly below 10. -/
theorem c7_low_deposit_warning (m d r : ℚ) (t : ℤ) (P : ℚ)
    (h : calculate_loan_amount m r t = Sum.inr P) :
    (affordable_branch m d r t).success = true ∧
    (affordable_branch m d r t).deposit_percentage = d / (P + d) * 100 ∧
    ((affordable_branch m d r t).warning_shown = true ↔ d / (P + d) * 100 < 10) := by
  simp [affordable_branch, h]

/-- Witness for C7 at payment 1000, deposit 60000, rate 0, term 20 years,
where the loan amount is 240000 and the deposit percentage is 20. -/
theorem c7_witness :
    (affordable_branch 1000 60000 0 20).success = true ∧
    (affordable_branch 1000 60000 0 20).deposit_percentage =
      60000 / ((240000 : ℚ) + 60000) * 100 ∧
    ((affordable_branch 1000 60000 0 20).warning_shown = true ↔
      (60000 : ℚ) / (240000 + 60000) * 100 < 10) :=
  c7_low_deposit_warning 1000 60000 0 20 240000
    (by rw [loan_zero_rate 1000 20 (by norm_num) (by norm_num)]; norm_num)

/-- C9: whenever `calculate_loan_amount` succeeds, the returned principal
is strictly positive, so for every non-negative deposit the denominator
principal + deposit of the deposit-percentage division is strictly
positive; the division can only be on zero if the deposit is negative
enough to cancel the principal. -/
theorem c9_deposit_division_safe (m d r : ℚ) (t : ℤ) (P : ℚ)
    (h : calculate_loan_amount m r t = Sum.inr P) (hd : 0 ≤ d) :
    0 < P ∧ 0 < P + d := by
  have hP := loan_result_pos m r t P h
  exact ⟨hP, by linarith⟩

/-- Witness for C9 at payment 1000, rate 0, term 20 years, deposit 0. -/
theorem c9_witness : (0 : ℚ) < 240000 ∧ (0 : ℚ) < 240000 + 0 :=
  c9_deposit_division_safe 1000 0 0 20 240000
    (by rw [loan_zero_rate 1000 20 (by norm_num) (by norm_num)]; norm_num)
    (by norm_num)

/-- C8 counterexample: at principal 200000, rate 0.045, term 25 the exact
payment is 1111.6649…, which is not within 0.01 of the 1111.48 the claim
names. -/
theorem c8_counterexample :
    ¬ ∃ v, calculate_mortgage_payment 200000 (45 / 1000) 25 = Sum.inr v ∧
      |v - 111148 / 100| < 1 / 100 := by
  rintro ⟨v, hv, hb⟩
  rw [payment_formula 200000 (45 / 1000) 25 (by norm_num) (by norm_num)
    (by norm_num)] at hv
  have hval : v = 200000 * (45 / 1000 / 12 *
      (1 + 45 / 1000 / 12) ^ ((25 * 12 : ℤ)).toNat /
      ((1 + 45 / 1000 / 12) ^ ((25 * 12 : ℤ)).toNat - 1)) :=
    (Sum.inr.inj hv).symm
  have h300 : ((25 * 12 : ℤ)).toNat = 300 := rfl
  rw [hval, h300, abs_sub_lt_iff] at hb
  have hb1 := hb.1
  norm_num at hb1

/-- C8 amended: at principal 200000, rate 0.045, term 25 the payment
function returns a value within 0.01 of 1111.66 (evaluated with exact
rational arithmetic). -/
theorem c8_concrete_scenario :
    ∃ v, calculate_mortgage_payment 200000 (45 / 1000) 25 = Sum.inr v ∧
      |v - 111166 / 100| < 1 / 100 := by
  refine ⟨_, payment_formula 200000 (45 / 1000) 25 (by norm_num) (by norm_num)
    (by norm_num), ?_⟩
  have h300 : ((25 * 12 : ℤ)).toNat = 300 := rfl
  rw [h300, abs_sub_lt_iff]
  constructor <;> norm_num

end MortgageCalc
